import Mathlib

/-!
Shallow embedding of the BLE sensor screen of the NeuraLoadAPP repository
(the full screen in `src/unnamed/part_000`; `src/app/(tabs)/BleTest.tsx` is a
near-duplicate with only the IMU and Laser channels).

Bytes are modelled as `Nat` values below 256; a notification payload is the
byte buffer obtained after the base-64 transport decoding step
(`Buffer.from(value, "base64")` in the source), since base-64 decoding is a
bijection onto byte strings and every claim speaks about the byte buffer.
A decoded IEEE-754 float32 is carried as its 32-bit little-endian word
(`readFloatLE` is injective on bit patterns up to the ±0 / NaN identifications,
none of which any claim touches); `f32ToRat` interprets a finite word as the
exact rational value of the float.
-/

namespace NeuraLoad

/-- Advertised local name the scanner filters on (`DEVICE_LOCAL_NAME`). -/
def DEVICE_LOCAL_NAME : String := "NeuraLoad"

/-- A discovered peripheral as the scan callback sees it: platform identity
and optional advertised local name (`device.id`, `device.name`). -/
structure Device where
  id : String
  name : Option String
deriving DecidableEq, Repr

/-- The component state of the screen: the `useState` slots of `BleTest`.
`imuData`/`laserData` hold decoded float words, `weightData` one float word
(initially the JS number `0`, bit pattern of +0.0), `deviceID` a string
(initially the sentinel `"N/A"`). -/
structure AppState where
  allDevices : List Device
  connectedDevice : Option Device
  isScanning : Bool
  imuData : List Nat
  laserData : List Nat
  weightData : Nat
  deviceID : String
deriving DecidableEq, Repr

/-- Initial state of all `useState` hooks. -/
def initialState : AppState :=
  { allDevices := []
    connectedDevice := none
    isScanning := false
    imuData := []
    laserData := []
    weightData := 0
    deviceID := "N/A" }

/-- The little-endian 32-bit word starting at byte offset `i`
(the bit pattern `buffer.readFloatLE(i)` reinterprets; meaningful when
`i + 4 ≤ buf.length`). -/
def readWordLE (buf : List Nat) (i : Nat) : Nat :=
  buf.getD i 0 + 256 * buf.getD (i + 1) 0 + 256 ^ 2 * buf.getD (i + 2) 0 +
    256 ^ 3 * buf.getD (i + 3) 0

/-- The float-parse loop shared by the IMU and Laser callbacks:
`for (let i = 0; i < buffer.length; i += 4) floats.push(buffer.readFloatLE(i))`.
Each iteration consumes the 4 bytes at offsets `[i, i+4)`; when 1–3 bytes
remain, `readFloatLE` raises a range error that aborts the callback, which
`none` models. -/
def parseWords : List Nat → Option (List Nat)
  | [] => some []
  | b0 :: b1 :: b2 :: b3 :: rest =>
      (parseWords rest).map (fun fs =>
        (b0 + 256 * b1 + 256 ^ 2 * b2 + 256 ^ 3 * b3) :: fs)
  | _ => none

/-- Group `imuData` into consecutive 9-element rows, as `getImuMatrix` does
(`for (let i = 0; i < imuData.length; i += 9) matrix.push(imuData.slice(i, i+9))`). -/
def getImuMatrix : List Nat → List (List Nat)
  | [] => []
  | a :: b :: c :: d :: e :: f :: g :: h :: i :: rest =>
      [a, b, c, d, e, f, g, h, i] :: getImuMatrix rest
  | l => [l]

/-- Exact rational value of a finite IEEE-754 single-precision word;
`none` for the exponent-255 words (infinities and NaNs, which have no
rational value). -/
def f32ToRat (w : Nat) : Option ℚ :=
  let s : Nat := w / 2 ^ 31
  let e : Nat := w / 2 ^ 23 % 2 ^ 8
  let m : Nat := w % 2 ^ 23
  if e = 255 then none
  else
    some ((if s = 1 then (-1 : ℚ) else 1) *
      (if e = 0 then (m : ℚ) / 2 ^ 149 else ((2 ^ 23 + m : ℚ) * 2 ^ e) / 2 ^ 150))

/-- The scan callback passed to `bleManager.startDeviceScan`: on a scan error
set `isScanning` false and stop; otherwise add the device to `allDevices` iff
its advertised name equals `DEVICE_LOCAL_NAME` exactly and no device with the
same `id` is already in the list (`findIndex(d => d.id === device.id) >= 0`). -/
def scanCallback (error : Bool) (device : Option Device) (s : AppState) : AppState :=
  if error then { s with isScanning := false }
  else
    match device with
    | none => s
    | some d =>
        if d.name = some DEVICE_LOCAL_NAME then
          if s.allDevices.any (fun x => x.id = d.id) then s
          else { s with allDevices := s.allDevices ++ [d] }
        else s

/-- The transport commands `scanForDevices` issues, in order. -/
inductive ScanAction where
  | stopScan
  | requestPerm
  | startScan
deriving DecidableEq, Repr

/-- The body of `scanForDevices` up to the registration of the scan callback:
`setIsScanning(true)`, `stopDeviceScan()`, then `await requestPermissions()`;
if the permission resolves to `false` it logs, sets `isScanning` false and
returns without calling `startDeviceScan`; otherwise it clears `allDevices`
and starts the scan. Returns the ordered command trace and the state. -/
def scanForDevices (perm : Bool) (s : AppState) : List ScanAction × AppState :=
  let s1 := { s with isScanning := true }
  if perm then
    ([ScanAction.stopScan, ScanAction.requestPerm, ScanAction.startScan],
      { s1 with allDevices := [] })
  else
    ([ScanAction.stopScan, ScanAction.requestPerm], { s1 with isScanning := false })

/-- The IMU notify callback: drop on channel error or absent value; otherwise
parse the buffer with the 4-byte-stride loop and `setImuData(floats)`.
A range-error throw (length not a multiple of 4) aborts before the set. -/
def imuNotify (error : Bool) (value : Option (List Nat)) (s : AppState) : AppState :=
  if error then s
  else
    match value with
    | none => s
    | some buf =>
        match parseWords buf with
        | none => s
        | some floats => { s with imuData := floats }

/-- The Laser notify callback, same parse loop, target `laserData`. -/
def laserNotify (error : Bool) (value : Option (List Nat)) (s : AppState) : AppState :=
  if error then s
  else
    match value with
    | none => s
    | some buf =>
        match parseWords buf with
        | none => s
        | some floats => { s with laserData := floats }

/-- The Weight notify callback: drop on error or absent value; if
`buffer.length >= 4` store the single float read at offset 0
(`buffer.readFloatLE(0)`), else do nothing. -/
def weightNotify (error : Bool) (value : Option (List Nat)) (s : AppState) : AppState :=
  if error then s
  else
    match value with
    | none => s
    | some buf =>
        if 4 ≤ buf.length then { s with weightData := readWordLE buf 0 } else s

/-- Completion of the `readDeviceID` request: when a value is present, store
the UTF-8 decoded string; an absent value or a thrown read error leaves the
slot unchanged. The event carries the already-decoded string. -/
def readDeviceIDDone (idStr : Option String) (s : AppState) : AppState :=
  match idStr with
  | none => s
  | some str => { s with deviceID := str }

/-- Completion of `connectToDevice(device)` as the code handles it.
`connectOk = false`: `await bleManager.connectToDevice` threw, the catch
logs and nothing was mutated. On success `setConnectedDevice(connected)`
runs first; then `await discoverAllServicesAndCharacteristics()` — if that
throws (`discoverOk = false`) control jumps to the catch, with the
connected-device reference already set and never cleared. No result of the
discovery is inspected. There is no check that this completion still belongs
to the current attempt. -/
def connectDone (dev : Device) (connectOk discoverOk : Bool) (s : AppState) : AppState :=
  let _ := discoverOk
  if connectOk then { s with connectedDevice := some dev } else s

/-- The `disconnectDevice` handler: when a device is connected, fire-and-forget
`cancelDeviceConnection` (its rejection is caught and only logged, which is
why the result does not depend on `cancelErr`), clear the device reference
and reset every sensor slot to its initial sentinel. When no device is
connected it does nothing at all. -/
def disconnectDevice (cancelErr : Bool) (s : AppState) : AppState :=
  match s.connectedDevice with
  | none => s
  | some _ =>
      let _ := cancelErr
      { s with
        connectedDevice := none
        imuData := []
        laserData := []
        weightData := 0
        deviceID := "N/A" }

/-- The asynchronous events the screen reacts to. `cancelDeviceConnection`
is not awaited, so notify events may arrive after a disconnect invocation;
a `connectDone` may arrive after a `disconnect` issued while the connect
was in flight. -/
inductive Event where
  | scanEvt (error : Bool) (device : Option Device)
  | connectEvt (dev : Device) (connectOk discoverOk : Bool)
  | imuEvt (error : Bool) (value : Option (List Nat))
  | laserEvt (error : Bool) (value : Option (List Nat))
  | weightEvt (error : Bool) (value : Option (List Nat))
  | deviceIDEvt (idStr : Option String)
  | disconnect (cancelErr : Bool)
deriving DecidableEq, Repr

/-- One event applied to the state. -/
def step (s : AppState) : Event → AppState
  | Event.scanEvt e d => scanCallback e d s
  | Event.connectEvt dev cOk dOk => connectDone dev cOk dOk s
  | Event.imuEvt e v => imuNotify e v s
  | Event.laserEvt e v => laserNotify e v s
  | Event.weightEvt e v => weightNotify e v s
  | Event.deviceIDEvt i => readDeviceIDDone i s
  | Event.disconnect c => disconnectDevice c s

/-- Run a sequence of events from the initial state. -/
def run (es : List Event) : AppState :=
  es.foldl step initialState

/-- The 144-byte example frame of the spec: first float32-LE word `1.0`
(bytes `00 00 80 3F`), remaining 140 bytes zero. -/
def imuExampleBuf : List Nat := [0x00, 0x00, 0x80, 0x3F] ++ List.replicate 140 0

lemma readWordLE_zero_cons (b0 b1 b2 b3 : Nat) (l : List Nat) :
    readWordLE (b0 :: b1 :: b2 :: b3 :: l) 0 =
      b0 + 256 * b1 + 256 ^ 2 * b2 + 256 ^ 3 * b3 := rfl

lemma readWordLE_cons4 (b0 b1 b2 b3 : Nat) (l : List Nat) (i : Nat) :
    readWordLE (b0 :: b1 :: b2 :: b3 :: l) (i + 4) = readWordLE l i := by
  simp [readWordLE, List.getD_cons_succ]

lemma parseWords_eq_map_range :
    ∀ (n : ℕ) (buf : List Nat), buf.length = 4 * n →
      parseWords buf = some ((List.range n).map fun j => readWordLE buf (4 * j)) := by
  intro n
  induction n with
  | zero =>
      intro buf h
      have hb : buf = [] := by
        cases buf with
        | nil => rfl
        | cons a l => simp at h
      subst hb
      simp [parseWords]
  | succ n ih =>
      intro buf h
      match buf, h with
      | [], h => simp at h
      | [b0], h => simp at h; omega
      | [b0, b1], h => simp at h; omega
      | [b0, b1, b2], h => simp at h; omega
      | b0 :: b1 :: b2 :: b3 :: rest, h =>
        have hr : rest.length = 4 * n := by simp at h; omega
        rw [parseWords, ih rest hr, List.range_succ_eq_map]
        simp [Function.comp, Nat.mul_succ, readWordLE_cons4, readWordLE_zero_cons]

lemma parseWords_eq_none_aux :
    ∀ (k : ℕ) (buf : List Nat), buf.length ≤ k → buf.length % 4 ≠ 0 →
      parseWords buf = none := by
  intro k
  induction k with
  | zero =>
      intro buf hk hm
      interval_cases h : buf.length
      · exact absurd rfl hm
  | succ k ih =>
      intro buf hk hm
      match buf with
      | [] => exact absurd rfl hm
      | [b0] => rfl
      | [b0, b1] => rfl
      | [b0, b1, b2] => rfl
      | b0 :: b1 :: b2 :: b3 :: rest =>
        have h1 : rest.length ≤ k := by simp at hk ⊢; omega
        have h2 : rest.length % 4 ≠ 0 := by simp at hm ⊢; omega
        rw [parseWords, ih rest h1 h2]
        rfl

lemma parseWords_eq_none (buf : List Nat) (h : buf.length % 4 ≠ 0) :
    parseWords buf = none :=
  parseWords_eq_none_aux buf.length buf le_rfl h

lemma getImuMatrix_map_range36 (f : ℕ → ℕ) :
    getImuMatrix ((List.range 36).map f) =
      (List.range 4).map fun r => (List.range 9).map fun c => f (9 * r + c) := by
  rfl

lemma getD_take4 (l : List Nat) (i : Nat) (h : i < 4) :
    (l.take 4).getD i 0 = l.getD i 0 := by
  simp [List.getD_eq_getElem?_getD, List.getElem?_take, h]

lemma readWordLE_zero_take (buf : List Nat) :
    readWordLE (buf.take 4) 0 = readWordLE buf 0 := by
  simp only [readWordLE]
  rw [getD_take4 buf 0 (by omega), getD_take4 buf 1 (by omega),
    getD_take4 buf 2 (by omega), getD_take4 buf 3 (by omega)]

/-- The invariant the scan callback preserves on the candidate list:
pairwise-distinct device identities, and every entry carries the filter
name exactly. -/
def ScanListOk (l : List Device) : Prop :=
  (l.map Device.id).Nodup ∧ ∀ d ∈ l, d.name = some DEVICE_LOCAL_NAME

lemma scanCallback_preserves (e : Bool) (dev : Option Device) (s : AppState)
    (h : ScanListOk s.allDevices) : ScanListOk (scanCallback e dev s).allDevices := by
  obtain ⟨h1, h2⟩ := h
  unfold scanCallback
  split
  · exact ⟨h1, h2⟩
  · match dev with
    | none => exact ⟨h1, h2⟩
    | some d =>
      simp only
      split
      · split
        · exact ⟨h1, h2⟩
        · rename_i hname hdup
          constructor
          · rw [List.map_append, List.nodup_append]
            refine ⟨h1, List.nodup_singleton _, ?_⟩
            intro x hx hx'
            simp only [List.map_cons, List.map_nil, List.mem_singleton] at hx'
            rw [List.mem_map] at hx
            obtain ⟨y, hy, hyx⟩ := hx
            exact hdup (by rw [List.any_eq_true]; exact ⟨y, hy, by simp [hyx, hx']⟩)
          · intro x hx
            rcases List.mem_append.1 hx with hx | hx
            · exact h2 x hx
            · rw [List.mem_singleton] at hx
              rw [hx]; exact hname
      · exact ⟨h1, h2⟩

lemma scanFold_preserves (evs : List (Bool × Option Device)) :
    ∀ s : AppState, ScanListOk s.allDevices →
      ScanListOk ((evs.foldl (fun st e => scanCallback e.1 e.2 st) s).allDevices) := by
  induction evs with
  | nil => intro s h; exact h
  | cons e evs ih =>
      intro s h
      exact ih _ (scanCallback_preserves e.1 e.2 s h)

/-- C1 (counterexample). The claim fails on the code: the 4-byte buffer
`[0, 0, 128, 63]` has length ≠ 144, yet the IMU callback raises no length
error — it decodes the buffer and overwrites the IMU slot of the store with
the one-float frame `[0x3F800000]`. -/
theorem imu_length_check_counterexample :
    [(0 : Nat), 0, 128, 63].length ≠ 144 ∧
    (imuNotify false (some [0, 0, 128, 63]) initialState).imuData ≠ initialState.imuData ∧
    (imuNotify false (some [0, 0, 128, 63]) initialState).imuData = [1065353216] := by
  decide

/-- C1 (amended). The IMU callback performs no length validation: for any
present payload whose length is a multiple of 4 it overwrites the IMU slot
with the `length / 4` decoded little-endian words (also when the length is
not 144); when the length is not a multiple of 4 the out-of-range read
aborts the callback and the state is unchanged; the stored frame has the
full 36 floats exactly when the buffer length is 144. -/
theorem imu_no_length_validation :
    (∀ (buf : List Nat) (s : AppState), 4 ∣ buf.length →
      (imuNotify false (some buf) s).imuData =
        (List.range (buf.length / 4)).map fun j => readWordLE buf (4 * j)) ∧
    (∀ (buf : List Nat) (s : AppState), ¬ 4 ∣ buf.length →
      imuNotify false (some buf) s = s) ∧
    (∀ (buf : List Nat) (s : AppState), 4 ∣ buf.length →
      ((imuNotify false (some buf) s).imuData.length = 36 ↔ buf.length = 144)) := by
  have key : ∀ (buf : List Nat) (s : AppState), 4 ∣ buf.length →
      (imuNotify false (some buf) s).imuData =
        (List.range (buf.length / 4)).map fun j => readWordLE buf (4 * j) := by
    intro buf s h
    obtain ⟨n, hn⟩ := h
    have hq : buf.length / 4 = n := by omega
    simp [imuNotify, parseWords_eq_map_range n buf hn, hq]
  refine ⟨key, ?_, ?_⟩
  · intro buf s h
    have hm : buf.length % 4 ≠ 0 := by omega
    simp [imuNotify, parseWords_eq_none buf hm]
  · intro buf s h
    rw [key buf s h]
    simp only [List.length_map, List.length_range]
    omega

/-- C1 (witness). The amended theorem applied to the 4-byte frame
`[0, 0, 128, 63]` and the 3-byte frame `[0, 0, 1]`. -/
theorem imu_no_length_validation_witness :
    (imuNotify false (some [0, 0, 128, 63]) initialState).imuData =
      (List.range ([(0 : Nat), 0, 128, 63].length / 4)).map
        (fun j => readWordLE [0, 0, 128, 63] (4 * j)) ∧
    imuNotify false (some [0, 0, 1]) initialState = initialState :=
  ⟨imu_no_length_validation.1 [0, 0, 128, 63] initialState (by decide),
   imu_no_length_validation.2.1 [0, 0, 1] initialState (by decide)⟩

/-- C2. For every 144-byte buffer the IMU decode reads the 36 little-endian
float32 words at offsets `4 * j` in buffer order, and `getImuMatrix` groups
them into the 4 consecutive 9-float sub-readings `(r, c) ↦` word at offset
`4 * (9 * r + c)`; on the example buffer whose first word is `1.0`
(`00 00 80 3F`) and the rest zero, sub-reading 0 is `[1.0, 0,…,0]` and
sub-readings 1–3 are all zero. -/
theorem imu_decode_stride_grouping :
    (∀ buf : List Nat, buf.length = 144 →
      parseWords buf = some ((List.range 36).map fun j => readWordLE buf (4 * j)) ∧
      (parseWords buf).map getImuMatrix =
        some ((List.range 4).map fun r => (List.range 9).map fun c =>
          readWordLE buf (4 * (9 * r + c)))) ∧
    (parseWords imuExampleBuf).map
        (fun fs => (getImuMatrix fs).map fun row => row.map f32ToRat) =
      some [some 1 :: List.replicate 8 (some 0), List.replicate 9 (some (0 : ℚ)),
        List.replicate 9 (some 0), List.replicate 9 (some 0)] := by
  constructor
  · intro buf h
    have hp := parseWords_eq_map_range 36 buf (by omega)
    refine ⟨hp, ?_⟩
    rw [hp]
    simp only [Option.map_some']
    rw [getImuMatrix_map_range36]
  · have h0 : parseWords imuExampleBuf = some (1065353216 :: List.replicate 35 0) := by
      decide
    have h1 : getImuMatrix (1065353216 :: List.replicate 35 0) =
        [1065353216 :: List.replicate 8 0, List.replicate 9 0,
          List.replicate 9 0, List.replicate 9 0] := by
      decide
    rw [h0]
    simp only [Option.map_some']
    rw [h1]
    simp only [List.map_cons, List.map_replicate, List.map_nil]
    rw [show f32ToRat 1065353216 = some 1 by norm_num [f32ToRat],
      show f32ToRat 0 = some (0 : ℚ) by norm_num [f32ToRat]]

/-- C2 (witness). The stride/grouping theorem applied to the 144-byte
example buffer. -/
theorem imu_decode_stride_grouping_witness :
    imuExampleBuf.length = 144 ∧
    parseWords imuExampleBuf =
      some ((List.range 36).map fun j => readWordLE imuExampleBuf (4 * j)) :=
  ⟨by simp [imuExampleBuf], (imu_decode_stride_grouping.1 imuExampleBuf (by simp [imuExampleBuf])).1⟩

/-- C9. The float-parse loop visits exactly the offsets `0, 4, 8, …`
strictly below the buffer length. When the length is a multiple of 4 every
visited 4-byte read is in bounds and the loop totally yields `length / 4`
floats (the words at those offsets in order); otherwise the loop reaches
the offset `4 * (length / 4)` — a multiple of 4 strictly below the length —
whose 4-byte read extends past the end of the buffer, and the decode is not
total (the callback aborts with a range error). -/
theorem parse_loop_bounds :
    (∀ buf : List Nat, 4 ∣ buf.length →
      (∀ i, i % 4 = 0 → i < buf.length → ∃ j, j < buf.length / 4 ∧ i = 4 * j) ∧
      (∀ j, j < buf.length / 4 → 4 * j < buf.length ∧ 4 * j + 4 ≤ buf.length) ∧
      parseWords buf =
        some ((List.range (buf.length / 4)).map fun j => readWordLE buf (4 * j)) ∧
      ∀ fs, parseWords buf = some fs → fs.length = buf.length / 4) ∧
    (∀ buf : List Nat, ¬ 4 ∣ buf.length →
      parseWords buf = none ∧ 4 * (buf.length / 4) % 4 = 0 ∧
      4 * (buf.length / 4) < buf.length ∧ buf.length < 4 * (buf.length / 4) + 4) := by
  constructor
  · intro buf h
    obtain ⟨n, hn⟩ := h
    have hp := parseWords_eq_map_range n buf hn
    have hq : buf.length / 4 = n := by omega
    refine ⟨fun i h4 hlt => ⟨i / 4, by omega, by omega⟩,
      fun j hj => ⟨by omega, by omega⟩, by rw [hq]; exact hp, fun fs hfs => ?_⟩
    rw [hp] at hfs
    injection hfs with hfs
    rw [← hfs]
    simp [hq]
  · intro buf h
    exact ⟨parseWords_eq_none buf (by omega), by omega, by omega, by omega⟩

/-- C9 (witness). The loop theorem applied to the in-bounds buffer
`[1, 2, 3, 4]` and the out-of-bounds buffer `[1, 2, 3]`. -/
theorem parse_loop_bounds_witness :
    parseWords [1, 2, 3, 4] =
      some ((List.range ([(1 : Nat), 2, 3, 4].length / 4)).map
        fun j => readWordLE [1, 2, 3, 4] (4 * j)) ∧
    parseWords [1, 2, 3] = none :=
  ⟨(parse_loop_bounds.1 [1, 2, 3, 4] (by decide)).2.2.1,
   (parse_loop_bounds.2 [1, 2, 3] (by decide)).1⟩

/-- C7. The weight callback reads exactly the one little-endian float32
word at bytes `[0, 4)` whenever the buffer has at least 4 bytes — two such
buffers agreeing on their first 4 bytes produce identical results, so all
bytes beyond index 4 are ignored — and for buffers shorter than 4 bytes it
fails (no read) and leaves the state, in particular the weight slot,
unchanged. -/
theorem weight_decode_first_word :
    (∀ (buf : List Nat) (s : AppState), 4 ≤ buf.length →
      weightNotify false (some buf) s = { s with weightData := readWordLE buf 0 } ∧
      readWordLE buf 0 = readWordLE (buf.take 4) 0) ∧
    (∀ (buf buf' : List Nat) (s : AppState), 4 ≤ buf.length → 4 ≤ buf'.length →
      buf.take 4 = buf'.take 4 →
      weightNotify false (some buf) s = weightNotify false (some buf') s) ∧
    (∀ (buf : List Nat) (s : AppState), buf.length < 4 →
      weightNotify false (some buf) s = s) := by
  have key : ∀ (buf : List Nat) (s : AppState), 4 ≤ buf.length →
      weightNotify false (some buf) s = { s with weightData := readWordLE buf 0 } := by
    intro buf s h
    simp [weightNotify, h]
  refine ⟨fun buf s h => ⟨key buf s h, (readWordLE_zero_take buf).symm⟩, ?_, ?_⟩
  · intro buf buf' s h h' ht
    rw [key buf s h, key buf' s h']
    rw [← readWordLE_zero_take buf, ← readWordLE_zero_take buf', ht]
  · intro buf s h
    simp [weightNotify]
    omega

/-- C7 (witness). The weight theorem applied to `[0, 0, 0, 64]`, its
5-byte extension `[0, 0, 0, 64, 99]`, and the short buffer `[7]`. -/
theorem weight_decode_first_word_witness :
    weightNotify false (some [0, 0, 0, 64]) initialState =
      { initialState with weightData := readWordLE [0, 0, 0, 64] 0 } ∧
    weightNotify false (some [0, 0, 0, 64, 99]) initialState =
      weightNotify false (some [0, 0, 0, 64]) initialState ∧
    weightNotify false (some [7]) initialState = initialState :=
  ⟨(weight_decode_first_word.1 [0, 0, 0, 64] initialState (by decide)).1,
   weight_decode_first_word.2.1 [0, 0, 0, 64, 99] [0, 0, 0, 64] initialState
     (by decide) (by decide) (by decide),
   weight_decode_first_word.2.2 [7] initialState (by decide)⟩

/-- A concrete scan session: the same identity reported twice, then a
nameless device. -/
def scanExampleEvents : List (Bool × Option Device) :=
  [(false, some ⟨"a", some "NeuraLoad"⟩),
   (false, some ⟨"a", some "NeuraLoad"⟩),
   (false, some ⟨"b", none⟩)]

/-- C3. Within one scan session (the candidate list starts empty), after any
sequence of scan callbacks the candidate list never holds the same device
identity twice, and every listed device's advertised name is exactly the
configured filter name — devices with no name or another name are never
added. -/
theorem scan_dedup_filter_invariant :
    ∀ (evs : List (Bool × Option Device)) (s : AppState),
      (((evs.foldl (fun st e => scanCallback e.1 e.2 st)
          { s with allDevices := [] }).allDevices.map Device.id).Nodup) ∧
      ∀ d ∈ (evs.foldl (fun st e => scanCallback e.1 e.2 st)
          { s with allDevices := [] }).allDevices, d.name = some DEVICE_LOCAL_NAME := by
  intro evs s
  exact scanFold_preserves evs { s with allDevices := [] } ⟨by simp, by simp⟩

/-- C3 (witness). The invariant evaluated on a session that reports the
identity `"a"` twice and a nameless device `"b"`: the list keeps a single
entry, with the filter name. -/
theorem scan_dedup_filter_invariant_witness :
    (((scanExampleEvents.foldl (fun st e => scanCallback e.1 e.2 st)
        { initialState with allDevices := [] }).allDevices.map Device.id).Nodup) ∧
    (⟨"a", some "NeuraLoad"⟩ : Device).name = some DEVICE_LOCAL_NAME :=
  ⟨(scan_dedup_filter_invariant scanExampleEvents initialState).1,
   (scan_dedup_filter_invariant scanExampleEvents initialState).2
     ⟨"a", some "NeuraLoad"⟩ (by decide)⟩

/-- C8. Every run of `scanForDevices` requests the permission exactly once,
and any start of the underlying device scan comes strictly after that
request in the command trace; when the permission resolves to denied, the
trace stops at the request — the underlying scan is never started and no
second request (retry) is issued — and the attempt terminates with
`isScanning` reset to `false`. -/
theorem scan_permission_gate :
    (∀ (perm : Bool) (s : AppState),
      (scanForDevices perm s).1.count ScanAction.requestPerm = 1 ∧
      (scanForDevices perm s).1.indexOf ScanAction.requestPerm <
        (scanForDevices perm s).1.indexOf ScanAction.startScan) ∧
    (∀ s : AppState,
      (scanForDevices false s).1 = [ScanAction.stopScan, ScanAction.requestPerm] ∧
      ScanAction.startScan ∉ (scanForDevices false s).1 ∧
      (scanForDevices false s).2 = { s with isScanning := false }) := by
  constructor
  · intro perm s
    cases perm
    · refine ⟨rfl, ?_⟩
      rw [show (scanForDevices false s).1 =
        [ScanAction.stopScan, ScanAction.requestPerm] from rfl]
      decide
    · refine ⟨rfl, ?_⟩
      rw [show (scanForDevices true s).1 =
        [ScanAction.stopScan, ScanAction.requestPerm, ScanAction.startScan] from rfl]
      decide
  · intro s
    refine ⟨rfl, ?_, rfl⟩
    rw [show (scanForDevices false s).1 =
      [ScanAction.stopScan, ScanAction.requestPerm] from rfl]
    decide

/-- C4 (counterexample). A reachable trace on which a disconnect invocation
does not leave the Sensor Store empty: connect, receive a weight frame,
disconnect, receive a stale weight frame (`cancelDeviceConnection` is not
awaited, so notifications may still land), disconnect again — the second
disconnect is a no-op because no device is connected, and the weight slot
still holds the stale value `0x3F800000`, not the empty sentinel. -/
def staleWeightTrace : List Event :=
  [Event.connectEvt ⟨"dev0", some "NeuraLoad"⟩ true true,
   Event.weightEvt false (some [0, 0, 128, 63]),
   Event.disconnect false,
   Event.weightEvt false (some [0, 0, 128, 63]),
   Event.disconnect false]

/-- C4 (counterexample theorem). After the final disconnect invocation of
`staleWeightTrace` the connected-device reference is clear but the store is
not empty. -/
theorem disconnect_store_counterexample :
    (run staleWeightTrace).connectedDevice = none ∧
    (run staleWeightTrace).weightData = 1065353216 ∧
    (run staleWeightTrace).weightData ≠ initialState.weightData := by
  decide

/-- C4 (amended). Disconnect is idempotent and error-free (the result does
not depend on whether `cancelDeviceConnection` rejects): disconnecting with
a device connected clears the device reference and resets every sensor slot
to its sentinel, while disconnecting with no active connection is a complete
no-op — it leaves the store exactly as it was, empty only if it already
was. -/
theorem disconnect_idempotent_noop :
    (∀ (s : AppState) (e1 e2 : Bool),
      disconnectDevice e2 (disconnectDevice e1 s) = disconnectDevice e1 s) ∧
    (∀ (s : AppState) (e1 e2 : Bool), disconnectDevice e1 s = disconnectDevice e2 s) ∧
    (∀ (s : AppState) (e : Bool), s.connectedDevice = none → disconnectDevice e s = s) ∧
    (∀ (s : AppState) (e : Bool) (d : Device), s.connectedDevice = some d →
      disconnectDevice e s =
        { s with
          connectedDevice := none
          imuData := []
          laserData := []
          weightData := 0
          deviceID := "N/A" }) := by
  refine ⟨fun s e1 e2 => ?_, fun s e1 e2 => ?_, fun s e h => ?_, fun s e d h => ?_⟩
  · cases h : s.connectedDevice <;> simp [disconnectDevice, h]
  · cases h : s.connectedDevice <;> simp [disconnectDevice, h]
  · simp [disconnectDevice, h]
  · simp [disconnectDevice, h]

/-- C4 (witness). The amended theorem applied to the initial (disconnected)
state and to a concrete connected state. -/
theorem disconnect_idempotent_noop_witness :
    disconnectDevice false initialState = initialState ∧
    disconnectDevice true
        { initialState with connectedDevice := some ⟨"w0", some "NeuraLoad"⟩ } =
      { { initialState with connectedDevice := some ⟨"w0", some "NeuraLoad"⟩ } with
        connectedDevice := none
        imuData := []
        laserData := []
        weightData := 0
        deviceID := "N/A" } :=
  ⟨disconnect_idempotent_noop.2.2.1 initialState false rfl,
   disconnect_idempotent_noop.2.2.2
     { initialState with connectedDevice := some ⟨"w0", some "NeuraLoad"⟩ }
     true ⟨"w0", some "NeuraLoad"⟩ rfl⟩

/-- C5 (counterexample trace). A disconnect is requested while a connect is
in flight; the connect completion then arrives, followed by a weight
notification of the re-subscribed session. -/
def staleConnectTrace : List Event :=
  [Event.disconnect false,
   Event.connectEvt ⟨"dev1", some "NeuraLoad"⟩ true true,
   Event.weightEvt false (some [0, 0, 128, 63])]

/-- C5 (counterexample theorem). The stale connect completion is not
discarded: it re-establishes the connected state and the store is
repopulated afterwards. -/
theorem stale_connect_counterexample :
    (run staleConnectTrace).connectedDevice = some ⟨"dev1", some "NeuraLoad"⟩ ∧
    (run staleConnectTrace).weightData ≠ initialState.weightData := by
  decide

/-- C5 (amended). The connect completion handler has no stale-completion
guard: whatever the current state — in particular the state produced by any
disconnect invocation — a successful completion sets the connected-device
reference, and subsequent notifications repopulate the store. -/
theorem connect_completion_unguarded :
    (∀ (s : AppState) (d : Device) (dOk : Bool),
      (connectDone d true dOk s).connectedDevice = some d) ∧
    (∀ (s : AppState) (e : Bool) (d : Device) (dOk : Bool),
      connectDone d true dOk (disconnectDevice e s) =
        { disconnectDevice e s with connectedDevice := some d }) :=
  ⟨fun _ _ _ => rfl, fun _ _ _ _ => rfl⟩

/-- C6 (counterexample trace). Transport connect succeeds and
service/characteristic discovery then fails. -/
def discoveryFailTrace : List Event :=
  [Event.connectEvt ⟨"dev2", some "NeuraLoad"⟩ true false]

/-- C6 (counterexample theorem). A failed discovery does not abort the
attempt back to Idle: the connected-device reference set before discovery
remains set. -/
theorem discovery_failure_counterexample :
    (run discoveryFailTrace).connectedDevice = some ⟨"dev2", some "NeuraLoad"⟩ ∧
    (run discoveryFailTrace).connectedDevice ≠ none := by
  decide

/-- C6 (amended). The code never validates the discovered services or
characteristics: `connectToDevice` sets the connected-device reference
before discovery, a discovery failure is caught and logged with that
reference left set (no abort to Idle), a transport connect failure leaves
the state untouched, and a missing characteristic surfaces only as
per-channel error callbacks, which are dropped without any session-level
effect. -/
theorem discovery_no_validation :
    (∀ (s : AppState) (d : Device),
      connectDone d true false s = { s with connectedDevice := some d }) ∧
    (∀ (s : AppState) (d : Device) (dOk : Bool), connectDone d false dOk s = s) ∧
    (∀ (s : AppState) (v : Option (List Nat)),
      imuNotify true v s = s ∧ laserNotify true v s = s ∧ weightNotify true v s = s) :=
  ⟨fun _ _ => rfl, fun _ _ _ => rfl, fun _ _ => ⟨rfl, rfl, rfl⟩⟩

/-- C10. The never-received weight is the sentinel word `0` (the JS number
`0`) and the never-received identity is the sentinel string `"N/A"`, not a
distinct empty value: a successful weight decode of the frame
`00 00 00 00` — the float32 value `0.0` — stores exactly the sentinel, so
the slot is indistinguishable from the never-received state; disconnecting
from a connected state restores both sentinels. -/
theorem sentinel_representation :
    initialState.weightData = 0 ∧ initialState.deviceID = "N/A" ∧
    readWordLE [0, 0, 0, 0] 0 = 0 ∧ f32ToRat 0 = some 0 ∧
    (∀ s : AppState,
      (weightNotify false (some [0, 0, 0, 0]) s).weightData = initialState.weightData) ∧
    (∀ (s : AppState) (e : Bool) (d : Device), s.connectedDevice = some d →
      (disconnectDevice e s).weightData = 0 ∧ (disconnectDevice e s).deviceID = "N/A") := by
  refine ⟨rfl, rfl, rfl, by norm_num [f32ToRat], fun s => rfl, fun s e d h => ?_⟩
  simp [disconnectDevice, h]

/-- C10 (witness). The sentinel theorem applied to a connected state whose
weight and identity slots hold received values. -/
theorem sentinel_representation_witness :
    (disconnectDevice false
        { initialState with
          connectedDevice := some ⟨"dev3", some "NeuraLoad"⟩
          weightData := 1065353216
          deviceID := "NeuraLoad-01" }).weightData = 0 ∧
    (disconnectDevice false
        { initialState with
          connectedDevice := some ⟨"dev3", some "NeuraLoad"⟩
          weightData := 1065353216
          deviceID := "NeuraLoad-01" }).deviceID = "N/A" :=
  sentinel_representation.2.2.2.2.2
    { initialState with
      connectedDevice := some ⟨"dev3", some "NeuraLoad"⟩
      weightData := 1065353216
      deviceID := "NeuraLoad-01" }
    false ⟨"dev3", some "NeuraLoad"⟩ rfl

end NeuraLoad
